import Mathlib

/-!
Verification of the subiquity repository specification against its code.

Part one embeds `scripts/validate-autoinstall-user-data.py`, the standalone
autoinstall document validator.  External library calls (`yaml.safe_load`,
`jsonschema.validate`) are represented by oracle fields/parameters carrying
their result for the run under consideration; everything the script itself
computes is translated directly.

Part two models the storage mutation engine, the install lifecycle state
machine and the shutdown behaviour.  The engine's server code is not part of
the excerpted sources (only its API test file is), so those definitions are
modelled from the specification text, as marked in their doc comments.
-/

namespace Subiquity

/-! ## Embedding of scripts/validate-autoinstall-user-data.py -/

/-- A YAML value, as produced by `yaml.safe_load`. -/
inductive YamlVal where
  | str (s : String)
  | int (n : Int)
  | bool (b : Bool)
  | null
  | list (xs : List YamlVal)
  | dict (kvs : List (String × YamlVal))
deriving Repr, Inhabited

/-- A YAML mapping document (a Python `dict` keyed by strings). -/
abbrev YamlDoc : Type := List (String × YamlVal)

/-- An input to the validator: the raw text together with the result of
`yaml.safe_load` on that text (an external-library oracle; the script only
ever consumes mapping documents, which is what the claims concern). -/
structure Doc where
  data : String
  yaml : Except String YamlDoc

/-- The Python exceptions the validator can raise. -/
inductive PyErr where
  | indexError
  | assertionError (msg : String)
  | yamlError (msg : String)
  | validationError (msg : String)
deriving Repr, DecidableEq

/-- Rendering used by Python's `f"FAILURE: \x7bexc\x7d"` formatting. -/
def PyErr.toMessage : PyErr → String
  | .indexError => "list index out of range"
  | .assertionError m => m
  | .yamlError m => m
  | .validationError m => m

/-- The documentation link constant `DOC_LINK`. -/
def DOC_LINK : String :=
  "https://canonical-subiquity.readthedocs-hosted.com/en/latest/reference/autoinstall-reference.html"

/-- The success message constant `SUCCESS_MSG`. -/
def SUCCESS_MSG : String :=
  "Success: The provided autoinstall config validated successfully"

/-- The failure message constant `FAILURE_MSG` (defined but never printed). -/
def FAILURE_MSG : String :=
  "Failure: The provided autoinstall config failed validation"

/-- Message of the `AssertionError` raised when the first line is wrong. -/
def headerAssertMsg : String :=
  "Expected data to be wrapped in cloud-config but first line is not " ++
  "'#cloud-config'. Try passing --no-expect-cloudconfig."

/-- Message of the `AssertionError` raised when `autoinstall` is missing. -/
def keyAssertMsg : String :=
  "Expected data to be wrapped in cloud-config but could not find top " ++
  "level 'autoinstall' key."

/-- Message of the `assert verify_link(...)` failure in `main`. -/
def linkAssertMsg : String := "Documentation link missing from user data"

/-- Does `pat` occur as a prefix of `s` (character lists)? -/
def isPrefixCh : List Char → List Char → Bool
  | [], _ => true
  | _ :: _, [] => false
  | p :: ps, c :: cs => p = c && isPrefixCh ps cs

/-- Does `pat` occur as a contiguous run inside `s` (character lists)? -/
def containsCh (pat : List Char) : List Char → Bool
  | [] => isPrefixCh pat []
  | c :: cs => isPrefixCh pat (c :: cs) || containsCh pat cs

/-- Python's `pat in s` substring test on strings. -/
def strContains (s pat : String) : Bool :=
  containsCh pat.data s.data

/-- The function `verify_link`: `DOC_LINK in data`. -/
def verify_link (data : String) : Bool :=
  strContains data DOC_LINK

/-- Characters up to the first line terminator, as `str.splitlines` cuts
its first element (newline and carriage return; the exotic Unicode line
boundaries Python also accepts are not exercised by any input here). -/
def takeLine : List Char → List Char
  | [] => []
  | c :: cs => if c = '\n' || c = '\r' then [] else c :: takeLine cs

/-- Python's `data.splitlines()[0]`: `none` models the `IndexError` on a
string with no lines (only the empty string produces an empty list). -/
def firstLine? (s : String) : Option String :=
  if s.data.isEmpty then none else some (String.mk (takeLine s.data))

/-- Lookup in a YAML mapping, as `cc_data["autoinstall"]` / `in` do. -/
def lookupKey (k : String) : List (String × YamlVal) → Option YamlVal
  | [] => none
  | (k', v) :: rest => if k' = k then some v else lookupKey k rest

/-- The function `parse_cloud_config`: requires the `#cloud-config` first
line (an unguarded index on the empty input), loads the YAML, requires a
top-level `autoinstall` key and returns its value. -/
def parse_cloud_config (doc : Doc) : Except PyErr YamlVal :=
  match firstLine? doc.data with
  | none => .error .indexError
  | some first_line =>
    if ¬ (first_line = "#cloud-config") then
      .error (.assertionError headerAssertMsg)
    else
      match doc.yaml with
      | .error e => .error (.yamlError e)
      | .ok cc_data =>
        match lookupKey "autoinstall" cc_data with
        | none => .error (.assertionError keyAssertMsg)
        | some v => .ok v

/-- The function `parse_autoinstall`: dispatch on `expect_cloudconfig`. -/
def parse_autoinstall (doc : Doc) (expect_cloudconfig : Bool) :
    Except PyErr YamlVal :=
  if expect_cloudconfig then
    parse_cloud_config doc
  else
    match doc.yaml with
    | .error e => .error (.yamlError e)
    | .ok d => .ok (.dict d)

deriving instance DecidableEq for Except

/-- Observable result of one run of `main`: the lines printed, and either
an uncaught Python exception or the function's return value (`return 1`
after a parse failure, falling off the end otherwise). -/
structure MainResult where
  printed : List String
  outcome : Except PyErr (Option Int)
deriving Repr, DecidableEq

/-- The function `main`, for an already-read input `doc` and the parsed
flags; `legacyResult` is the oracle for `jsonschema.validate` in
`legacy_verify` (an `Except.error` models a raised `ValidationError`,
which `main` does not catch). -/
def main_run (doc : Doc) (expect_cloudconfig legacy : Bool)
    (legacyResult : Except String Unit) : MainResult :=
  if ¬ verify_link doc.data then
    { printed := [], outcome := .error (.assertionError linkAssertMsg) }
  else
    match parse_autoinstall doc expect_cloudconfig with
    | .error exc =>
      { printed := ["FAILURE: " ++ exc.toMessage], outcome := .ok (some 1) }
    | .ok _ai_user_data =>
      if legacy then
        match legacyResult with
        | .error m => { printed := [], outcome := .error (.validationError m) }
        | .ok _ => { printed := [SUCCESS_MSG], outcome := .ok none }
      else
        { printed := [SUCCESS_MSG], outcome := .ok none }

/-! ## Storage model and mutation engine

The storage engine itself is not among the excerpted source files (only its
API test suite is), so the definitions below are modelled from the
specification text (spec sections 3, 4.1-4.3, 6, 7 and the section 8
scenarios), as their doc comments state. -/

/-- Modelled from the spec: the wipe policy of a partition
(none / superblock-only / whole-device zero; `Option Wipe` with `none`
for no wipe, matching the API's null). -/
inductive Wipe where
  | superblock
  | zero
deriving Repr, DecidableEq

/-- Modelled from the spec: a partition (section 3): number, byte size,
filesystem format, mount point, `preserve`, `grub_device` and the derived
`wipe` policy. -/
structure Partition where
  number : Nat
  size : Nat
  format : Option String
  mount : Option String
  preserve : Bool
  grub_device : Bool
  wipe : Option Wipe
deriving Repr, DecidableEq

/-- Modelled from the spec: a disk (section 3): stable identifier, device
path, total size, its ordered partitions, and `preserve` recording that
the originally probed partition table is still on the device (cleared by
`reformat_disk`; the delete-requires-reformat policy of the section 8
scenario keys on it). -/
structure Disk where
  id : String
  path : String
  size : Nat
  preserve : Bool
  partitions : List Partition
deriving Repr, DecidableEq

/-- Modelled from the spec: a client partition descriptor as sent to the
v2 API (section 6); a negative size is the "use remaining space"
sentinel. -/
structure PartitionSpec where
  size : Int
  number : Nat
  format : Option String
  mount : Option String
  grub_device : Bool
  preserve : Bool
deriving Repr, DecidableEq

/-- Modelled from the spec: the error kinds of section 7 that the mutation
engine can return. -/
inductive ApiError where
  | notFound
  | policyError
  | insufficientSpace
  | validationError
deriving Repr, DecidableEq

/-- Modelled from the spec: the fixed reserved overhead subtracted from a
disk's free space (section 9 leaves the constant configurable, validated
against the fixture expectation of claim-source test
`test_v2_free_for_partitions`: an 80 GiB fixture disk must report
42410704896 bytes free after a half-disk partition). -/
def reservedOverhead : Nat := 538968064

/-- Modelled from the spec: sum of the byte sizes of a partition list. -/
def partSizeSum (ps : List Partition) : Nat :=
  ps.foldr (fun p acc => p.size + acc) 0

/-- Modelled from the spec: `free_for_partitions` (sections 3 and 8):
the disk's total size minus the space claimed by partitions minus the
fixed reserved overhead. -/
def free_for_partitions (d : Disk) : Nat :=
  d.size - partSizeSum d.partitions - reservedOverhead

/-- Modelled from the spec: the next free 1-based partition number on a
disk (no reuse of lower numbers while partitions exist). -/
def nextPartitionNumber (d : Disk) : Nat :=
  d.partitions.foldr (fun p acc => max p.number acc) 0 + 1

/-- Modelled from the spec: `reformat_disk` on one disk (section 4.3):
removes all partitions regardless of `preserve` and clears the disk's
original-table flag. -/
def reformatDisk (d : Disk) : Except ApiError Disk :=
  .ok { d with partitions := [], preserve := false }

/-- The disk a reformat produces: no partitions, original table gone. -/
def clearedDisk (d : Disk) : Disk :=
  { d with partitions := [], preserve := false }

/-- Modelled from the spec: the byte size a descriptor asks for on a disk
(a negative size is the "use remaining space" sentinel, resolved to the
free space). -/
def requestedSize (spec : PartitionSpec) (d : Disk) : Nat :=
  if spec.size < 0 then free_for_partitions d else spec.size.toNat

/-- Modelled from the spec: the partition `add_partition` creates: next
free number, resolved size, `preserve := false`, superblock wipe for the
freshly created filesystem. -/
def newPartition (spec : PartitionSpec) (d : Disk) : Partition :=
  { number := nextPartitionNumber d, size := requestedSize spec d,
    format := spec.format, mount := spec.mount, preserve := false,
    grub_device := spec.grub_device, wipe := some .superblock }

/-- Modelled from the spec: `add_partition` on one disk (section 4.3):
needs room for the requested size, otherwise an insufficient-space
error. -/
def addPartition (spec : PartitionSpec) (d : Disk) : Except ApiError Disk :=
  if requestedSize spec d = 0 ∨ free_for_partitions d < requestedSize spec d then
    .error .insufficientSpace
  else
    .ok { d with partitions := d.partitions ++ [newPartition spec d] }

/-- Modelled from the spec: the new value of an edited partition
(sections 3 and 4.3): if the format and the size are unchanged the edit
is a reuse - only the mount point changes and the derived wipe policy is
none; otherwise the partition is implicitly reformatted -
`preserve := false` and a superblock wipe.  A `none` format or a
non-positive size in the descriptor means that field is unchanged. -/
def editApply (old : Partition) (spec : PartitionSpec) : Partition :=
  if (spec.format = none ∨ spec.format = old.format) ∧
      (spec.size ≤ 0 ∨ spec.size = (old.size : Int)) then
    { old with mount := spec.mount, wipe := none }
  else
    { old with
      size := if spec.size ≤ 0 then old.size else spec.size.toNat,
      format := if spec.format = none then old.format else spec.format,
      mount := spec.mount, preserve := false, wipe := some .superblock }

/-- Modelled from the spec: `edit_partition` on one disk (section 4.3):
the numbered partition must exist; it is replaced by `editApply` and all
other partitions are untouched. -/
def editDisk (spec : PartitionSpec) (d : Disk) : Except ApiError Disk :=
  match d.partitions.find? (fun p => p.number == spec.number) with
  | none => .error .notFound
  | some _ =>
    .ok { d with partitions := d.partitions.map (fun p => if p.number = spec.number then editApply p spec else p) }

/-- Modelled from the spec: `delete_partition` on one disk (sections 4.3
and 8): the numbered partition must exist, and deleting is a policy error
while the disk still carries its original, never-reformatted partition
table (editing a partition does not lift this; only `reformat_disk`
does). -/
def deleteDisk (spec : PartitionSpec) (d : Disk) : Except ApiError Disk :=
  match d.partitions.find? (fun p => p.number == spec.number) with
  | none => .error .notFound
  | some _ =>
    if d.preserve then
      .error .policyError
    else
      .ok { d with partitions := d.partitions.filter (fun p => p.number != spec.number) }

/-- Find a disk by id, as the v2 API resolves `disk_id`. -/
def findDisk : List Disk → String → Option Disk
  | [], _ => none
  | d :: ds, i => if d.id = i then some d else findDisk ds i

/-- Replace the disk with the given id (first match) by `nd`. -/
def setDisk : List Disk → String → Disk → List Disk
  | [], _, _ => []
  | d :: ds, i, nd => if d.id = i then nd :: ds else d :: setDisk ds i nd

/-- Apply a per-disk operation to the named disk, a not-found error for an
unknown id; the rest of the model is untouched (atomic
validate-then-apply, spec section 4.1). -/
def withDisk : List Disk → String → (Disk → Except ApiError Disk) →
    Except ApiError (List Disk)
  | [], _, _ => .error .notFound
  | d :: ds, i, f =>
    if d.id = i then (f d).map (fun d' => d' :: ds)
    else (withDisk ds i f).map (fun ds' => d :: ds')

/-- Modelled from the spec: an install session (section 3): the current
model plus the read-only originally probed snapshot kept for `reset`. -/
structure Session where
  model : List Disk
  orig : List Disk
deriving Repr, DecidableEq

/-- Modelled from the spec: session creation from the probed snapshot. -/
def initSession (probed : List Disk) : Session :=
  { model := probed, orig := probed }

/-- Modelled from the spec: `reset()` (section 4.3): discard all mutations
and restore the originally probed snapshot verbatim. -/
def reset (s : Session) : Session :=
  { s with model := s.orig }

/-- The storage mutation requests of the v2 API (spec section 6). -/
inductive Op where
  | reformat (id : String)
  | add (id : String) (spec : PartitionSpec)
  | edit (id : String) (spec : PartitionSpec)
  | delete (id : String) (spec : PartitionSpec)
deriving Repr, DecidableEq

/-- Modelled from the spec: one mutation request against the session; only
the current model is touched, never the probed snapshot. -/
def applyOp (s : Session) : Op → Except ApiError Session
  | .reformat i =>
    (withDisk s.model i reformatDisk).map (fun m => { s with model := m })
  | .add i spec =>
    (withDisk s.model i (addPartition spec)).map (fun m => { s with model := m })
  | .edit i spec =>
    (withDisk s.model i (editDisk spec)).map (fun m => { s with model := m })
  | .delete i spec =>
    (withDisk s.model i (deleteDisk spec)).map (fun m => { s with model := m })

/-- A sequence of mutation requests, stopping at the first error. -/
def applyOps (s : Session) : List Op → Except ApiError Session
  | [] => .ok s
  | op :: ops =>
    match applyOp s op with
    | .error e => .error e
    | .ok s' => applyOps s' ops

/-- One disk of the "get current layout" response (spec section 6): the
disk with its partitions and its `free_for_partitions`. -/
structure DiskView where
  id : String
  path : String
  size : Nat
  partitions : List Partition
  free_for_partitions : Nat
deriving Repr, DecidableEq

/-- Render one disk for the layout response. -/
def diskView (d : Disk) : DiskView :=
  { id := d.id, path := d.path, size := d.size, partitions := d.partitions,
    free_for_partitions := free_for_partitions d }

/-- The "get current layout" response over the whole current model. -/
def getLayout (s : Session) : List DiskView :=
  s.model.map diskView

/-- Modelled from the spec: the probed EFI system partition of the
`win10` fixture disk. -/
def win10p1 : Partition :=
  { number := 1, size := 536870912, format := some "vfat",
    mount := some "/boot/efi", preserve := true, grub_device := true,
    wipe := none }

/-- Modelled from the spec: the probed reserved partition of the `win10`
fixture disk. -/
def win10p2 : Partition :=
  { number := 2, size := 16777216, format := none, mount := none,
    preserve := true, grub_device := false, wipe := none }

/-- Modelled from the spec: the probed BitLocker-detected main partition
of the `win10` fixture disk. -/
def win10p3 : Partition :=
  { number := 3, size := 84299448320, format := some "BitLocker",
    mount := none, preserve := true, grub_device := false, wipe := none }

/-- Modelled from the spec: the probed recovery partition of the `win10`
fixture disk. -/
def win10p4 : Partition :=
  { number := 4, size := 507281408, format := some "ntfs", mount := none,
    preserve := true, grub_device := false, wipe := none }

/-- Modelled from the spec: the `win10` example machine fixture used by
the claim-source tests: one originally populated 80 GiB disk `disk-sda`
with four probed partitions, all `preserve := true`. -/
def win10sda : Disk :=
  { id := "disk-sda", path := "/dev/sda", size := 85899345920,
    preserve := true,
    partitions := [win10p1, win10p2, win10p3, win10p4] }

/-- The probed model of the `win10` fixture machine. -/
def win10Disks : List Disk := [win10sda]

/-! ## Concrete fixtures used by the witness theorems -/

/-- The `win10` disk after `reformat_disk`. -/
def win10ClearedDisk : Disk :=
  { win10sda with partitions := [], preserve := false }

/-- The session after `reformat_disk` on the freshly probed `win10`
model. -/
def win10Reformatted : Session :=
  { model := [win10ClearedDisk], orig := win10Disks }

/-- The descriptor the claim-source flow test posts to `add_partition`
after the reformat (remaining-space sentinel size). -/
def demoAddSpec : PartitionSpec :=
  { size := -1, number := 1, format := some "ext3", mount := some "/",
    grub_device := true, preserve := false }

/-- The flow test's `edit_partition` descriptor: same partition, format
changed to ext4. -/
def demoEditSpec : PartitionSpec :=
  { size := -1, number := 1, format := some "ext4", mount := some "/",
    grub_device := true, preserve := false }

/-- The flow test's `delete_partition` descriptor. -/
def demoDeleteSpec : PartitionSpec :=
  { size := -1, number := 1, format := none, mount := none,
    grub_device := false, preserve := false }

/-- The reformat / add / edit / delete mutation sequence of the
claim-source flow test. -/
def demoOps : List Op :=
  [.reformat "disk-sda", .add "disk-sda" demoAddSpec,
   .edit "disk-sda" demoEditSpec, .delete "disk-sda" demoDeleteSpec]

/-- The session after the reformat and the remaining-space add of the
flow sequence. -/
def win10AddedSession : Session :=
  { model := [{ win10ClearedDisk with
      partitions := [newPartition demoAddSpec win10ClearedDisk] }],
    orig := win10Disks }

/-- The `delete_partition` descriptor of the delete-requires-reformat
scenario: partition 4 of the originally populated disk. -/
def del4spec : PartitionSpec :=
  { size := -1, number := 4, format := some "ext4", mount := some "/",
    grub_device := false, preserve := false }

/-- The session after editing partition 4 of the probed `win10` model. -/
def win10Edited4 : Session :=
  { model := [{ win10sda with
      partitions := win10sda.partitions.map
        (fun p => if p.number = del4spec.number then editApply p del4spec else p) }],
    orig := win10Disks }

/-- A reuse edit of the EFI system partition: same format, same size,
new mount point. -/
def reuseSpec : PartitionSpec :=
  { size := 0, number := 1, format := some "vfat", mount := some "/mnt",
    grub_device := true, preserve := false }

/-- The reuse scenario's format-changing edit of partition 3. -/
def changeSpec : PartitionSpec :=
  { size := 0, number := 3, format := some "ext4", mount := some "/",
    grub_device := false, preserve := false }

/-- The `win10` disk after the reuse edit of partition 1. -/
def win10ReuseDisk : Disk :=
  { win10sda with partitions := win10sda.partitions.map (fun p => if p.number = reuseSpec.number then editApply p reuseSpec else p) }

/-- The descriptor asking for exactly half of a disk. -/
def halfSpec (d : Disk) : PartitionSpec :=
  { size := ((d.size / 2 : Nat) : Int), number := 1, format := some "ext4",
    mount := some "/", grub_device := true, preserve := false }

/-- The half-disk partition created on the reformatted `win10` disk. -/
def halfPartition : Partition :=
  { number := 1, size := 42949672960, format := some "ext4",
    mount := some "/", preserve := false, grub_device := true,
    wipe := some .superblock }

/-- The reformatted `win10` disk carrying the half-disk partition. -/
def win10HalfDisk : Disk :=
  { win10sda with preserve := false, partitions := [halfPartition] }

/-- The session holding `win10HalfDisk`. -/
def win10HalfSession : Session :=
  { model := [win10HalfDisk], orig := win10Disks }

/-- A syntactically valid cloud-config input that does not contain
`DOC_LINK`. -/
def noLinkDoc : Doc :=
  { data := "#cloud-config\nautoinstall:",
    yaml := .ok [("autoinstall", .dict [])] }

/-- The raw text of a fully valid input (doc link present). -/
def linkedData : String :=
  "#cloud-config\n# " ++ DOC_LINK ++ "\nautoinstall:"

/-- A fully valid input: doc link present, cloud-config header, and an
`autoinstall` key. -/
def linkedDoc : Doc :=
  { data := linkedData, yaml := .ok [("autoinstall", .dict [])] }

/-- An input whose first line is not `#cloud-config`. -/
def badHeaderDoc : Doc :=
  { data := "hello\nworld", yaml := .ok [] }

/-- An input carrying the doc link whose cloud-config parse fails (the
first line is not the header). -/
def badParseDoc : Doc :=
  { data := "# " ++ DOC_LINK ++ "\nplain text", yaml := .ok [] }

/-- A cloud-config input whose document lacks the `autoinstall` key. -/
def noKeyDoc : Doc :=
  { data := "#cloud-config\nfoo: bar",
    yaml := .ok [("foo", .str "bar")] }

/-- A cloud-config input with an `autoinstall` key. -/
def goodDoc : Doc :=
  { data := "#cloud-config\nautoinstall: x",
    yaml := .ok [("autoinstall", .str "x")] }

/-! ## Install lifecycle state machine

The lifecycle controller is likewise absent from the excerpted sources;
the step function below is modelled from spec section 4.4. -/

/-- Modelled from the spec: the install lifecycle states of section 4.4,
reported by `/meta/status`. -/
inductive AppState where
  | WAITING
  | NEEDS_CONFIRMATION
  | RUNNING
  | POST_WAIT
  | POST_RUNNING
  | UU_RUNNING
  | ERROR
deriving Repr, DecidableEq, Fintype

/-- Position of a state in the linear order of spec section 4.4 (`ERROR`
is the terminal branch reachable from anywhere). -/
def AppState.rank : AppState → Nat
  | .WAITING => 0
  | .NEEDS_CONFIRMATION => 1
  | .RUNNING => 2
  | .POST_WAIT => 3
  | .POST_RUNNING => 4
  | .UU_RUNNING => 5
  | .ERROR => 6

/-- Modelled from the spec: the events driving the lifecycle machine of
section 4.4: the client's confirm request, its cancellation, the start of
the commit phase, completion of the phase in progress, and an
unrecoverable external-tool failure. -/
inductive AppEvent where
  | confirm
  | cancelConfirm
  | startCommit
  | phaseDone
  | fail
deriving Repr, DecidableEq, Fintype

/-- Modelled from the spec: the lifecycle transition function of section
4.4; `none` means the event is rejected in that state. -/
def lifecycleStep : AppState → AppEvent → Option AppState
  | .WAITING, .confirm => some .NEEDS_CONFIRMATION
  | .NEEDS_CONFIRMATION, .cancelConfirm => some .WAITING
  | .NEEDS_CONFIRMATION, .startCommit => some .RUNNING
  | .RUNNING, .phaseDone => some .POST_WAIT
  | .POST_WAIT, .phaseDone => some .POST_RUNNING
  | .POST_RUNNING, .phaseDone => some .UU_RUNNING
  | _, .fail => some .ERROR
  | _, _ => none

/-! ## Shutdown behaviour -/

/-- The shutdown modes of the `/shutdown` request (spec section 6). -/
inductive ShutdownMode where
  | POWEROFF
  | REBOOT
deriving Repr, DecidableEq, Fintype

/-- What the client observes for one request: a graceful reply, or the
connection dropping with no response. -/
inductive ConnOutcome where
  | reply
  | disconnect
deriving Repr, DecidableEq

/-- Modelled from the spec: the observable effect of a `/shutdown` request
(sections 4.4, 5 and 6): with the immediate flag the process is torn down
and the connection drops without a response, in every lifecycle state;
otherwise the request is answered first. -/
def shutdownOutcome (_st : AppState) (_mode : ShutdownMode)
    (immediate : Bool) : ConnOutcome :=
  if immediate then .disconnect else .reply

/-! ## Helper lemmas about the mutation engine -/

theorem except_map_ok {ε α β : Type} {f : α → β} {w : Except ε α} {b : β}
    (h : w.map f = .ok b) : ∃ a, w = .ok a ∧ b = f a := by
  cases w with
  | error e => simp [Except.map] at h
  | ok a =>
    refine ⟨a, rfl, ?_⟩
    simp [Except.map] at h
    exact h.symm

/-- No mutation request ever touches the probed snapshot. -/
theorem applyOp_orig {s s' : Session} {op : Op} (h : applyOp s op = .ok s') :
    s'.orig = s.orig := by
  cases op with
  | reformat i =>
    simp only [applyOp] at h
    obtain ⟨m, _, rfl⟩ := except_map_ok h
    rfl
  | add i spec =>
    simp only [applyOp] at h
    obtain ⟨m, _, rfl⟩ := except_map_ok h
    rfl
  | edit i spec =>
    simp only [applyOp] at h
    obtain ⟨m, _, rfl⟩ := except_map_ok h
    rfl
  | delete i spec =>
    simp only [applyOp] at h
    obtain ⟨m, _, rfl⟩ := except_map_ok h
    rfl

/-- No sequence of successful mutation requests touches the snapshot. -/
theorem applyOps_orig {ops : List Op} :
    ∀ {s s' : Session}, applyOps s ops = .ok s' → s'.orig = s.orig := by
  induction ops with
  | nil =>
    intro s s' h
    simp [applyOps] at h
    rw [← h]
  | cons op ops ih =>
    intro s s' h
    rw [applyOps] at h
    cases hop : applyOp s op with
    | error e =>
      rw [hop] at h
      exact Except.noConfusion h
    | ok t =>
      rw [hop] at h
      exact (ih h).trans (applyOp_orig hop)

/-- A found disk carries the id it was found under. -/
theorem findDisk_id {m : List Disk} {i : String} {d : Disk}
    (h : findDisk m i = some d) : d.id = i := by
  induction m with
  | nil => simp [findDisk] at h
  | cons d₀ ds ih =>
    by_cases hid : d₀.id = i
    · simp [findDisk, hid] at h
      rw [← h]
      exact hid
    · simp [findDisk, hid] at h
      exact ih h

/-- Lifting a per-disk operation through `withDisk` at a found disk. -/
theorem withDisk_eq {m : List Disk} {i : String} {d : Disk}
    (h : findDisk m i = some d) (f : Disk → Except ApiError Disk) :
    withDisk m i f = (f d).map (setDisk m i) := by
  induction m with
  | nil => simp [findDisk] at h
  | cons d₀ ds ih =>
    by_cases hid : d₀.id = i
    · simp only [findDisk, hid, if_pos, if_true] at h
      simp only [Option.some.injEq] at h
      subst h
      simp only [withDisk, hid, if_pos]
      cases f d₀ <;> simp [Except.map, setDisk, hid]
    · simp only [findDisk, hid, if_neg, ite_false] at h
      simp only [withDisk, hid, if_neg, ite_false, ih h]
      cases f d <;> simp [Except.map, setDisk, hid]

/-- After replacing the found disk, the replacement is found (the engine
never changes a disk's id). -/
theorem findDisk_setDisk {m : List Disk} {i : String} {d : Disk}
    (h : findDisk m i = some d) (d' : Disk) (hd' : d'.id = i) :
    findDisk (setDisk m i d') i = some d' := by
  induction m with
  | nil => simp [findDisk] at h
  | cons d₀ ds ih =>
    by_cases hid : d₀.id = i
    · simp [setDisk, findDisk, hid, hd']
    · simp only [findDisk, hid, if_neg, ite_false] at h
      simp [setDisk, findDisk, hid, ih h]

/-- Editing keeps the partition number. -/
theorem editApply_number (old : Partition) (spec : PartitionSpec) :
    (editApply old spec).number = old.number := by
  unfold editApply
  split <;> rfl

/-- Finding the edited partition in the rewritten partition list. -/
theorem find?_map_editApply (spec : PartitionSpec) :
    ∀ (l : List Partition) (old : Partition),
      l.find? (fun p => p.number == spec.number) = some old →
      (l.map (fun p => if p.number = spec.number then editApply p spec else p)).find?
          (fun p => p.number == spec.number) = some (editApply old spec) := by
  intro l
  induction l with
  | nil => intro old h; simp at h
  | cons p ps ih =>
    intro old h
    by_cases hn : p.number = spec.number
    · rw [List.find?_cons_of_pos _ (by simp [hn])] at h
      simp only [Option.some.injEq] at h
      subst h
      simp only [List.map_cons, if_pos hn]
      exact List.find?_cons_of_pos _ (by simp [editApply_number, hn])
    · rw [List.find?_cons_of_neg _ (by simp [hn])] at h
      simp only [List.map_cons, if_neg hn]
      rw [List.find?_cons_of_neg _ (by simp [hn])]
      exact ih old h

/-- Unfolding a successful per-disk operation through `applyOp`. -/
theorem withDisk_map_ok {s : Session} {i : String} {d : Disk} {s' : Session}
    {f : Disk → Except ApiError Disk}
    (hd : findDisk s.model i = some d)
    (h : (withDisk s.model i f).map (fun m => { s with model := m }) = .ok s') :
    ∃ d', f d = .ok d' ∧ s' = { s with model := setDisk s.model i d' } := by
  rw [withDisk_eq hd] at h
  obtain ⟨m, hm, rfl⟩ := except_map_ok h
  obtain ⟨d', hd', rfl⟩ := except_map_ok hm
  exact ⟨d', hd', rfl⟩

/-- `reformat_disk` always succeeds on a known disk and clears it. -/
theorem applyOp_reformat_eq {s : Session} {i : String} {d : Disk}
    (hd : findDisk s.model i = some d) :
    applyOp s (.reformat i) =
      .ok { s with model := setDisk s.model i (clearedDisk d) } := by
  simp only [applyOp]
  rw [withDisk_eq hd]
  rfl

/-- A successful `add_partition` through `applyOp`. -/
theorem applyOp_add_eq (s : Session) {i : String} {d dA : Disk}
    {spec : PartitionSpec}
    (hd : findDisk s.model i = some d)
    (hA : addPartition spec d = .ok dA) :
    applyOp s (.add i spec) = .ok { s with model := setDisk s.model i dA } := by
  simp only [applyOp]
  rw [withDisk_eq hd, hA]
  rfl

/-- Equation for a successful `edit_partition` on one disk. -/
theorem editDisk_ok {spec : PartitionSpec} {d : Disk} {old : Partition}
    (hfe : d.partitions.find? (fun q => q.number == spec.number) = some old) :
    editDisk spec d =
      .ok { d with partitions := d.partitions.map (fun p => if p.number = spec.number then editApply p spec else p) } := by
  unfold editDisk
  rw [hfe]

/-- Equation for `delete_partition` refused on an un-reformatted disk. -/
theorem deleteDisk_policy {spec : PartitionSpec} {d : Disk} {p : Partition}
    (hp : d.partitions.find? (fun q => q.number == spec.number) = some p)
    (hpres : d.preserve = true) :
    deleteDisk spec d = .error .policyError := by
  unfold deleteDisk
  rw [hp]
  simp [hpres]

/-- Equation for a successful `delete_partition` on a reformatted disk. -/
theorem deleteDisk_ok {spec : PartitionSpec} {d : Disk} {p : Partition}
    (hp : d.partitions.find? (fun q => q.number == spec.number) = some p)
    (hpres : d.preserve = false) :
    deleteDisk spec d =
      .ok { d with partitions := d.partitions.filter (fun q => q.number != spec.number) } := by
  unfold deleteDisk
  rw [hp]
  simp [hpres]

/-- Shape of the disk produced by a successful `add_partition`. -/
theorem addPartition_ok_shape {spec : PartitionSpec} {d dA : Disk}
    (h : addPartition spec d = .ok dA) :
    dA = { d with partitions := d.partitions ++ [newPartition spec d] } := by
  unfold addPartition at h
  split at h
  · exact Except.noConfusion h
  · simp only [Except.ok.injEq] at h
    exact h.symm

/-- A delete request on a disk still carrying its original partition
table answers with the policy error. -/
theorem applyOp_delete_policyError {s : Session} {i : String} {d : Disk}
    {dspec : PartitionSpec} {p : Partition}
    (hd : findDisk s.model i = some d)
    (hp : d.partitions.find? (fun q => q.number == dspec.number) = some p)
    (hpres : d.preserve = true) :
    applyOp s (.delete i dspec) = .error .policyError := by
  simp only [applyOp]
  rw [withDisk_eq hd, deleteDisk_policy hp hpres]
  rfl

/-- A delete request on a reformatted disk succeeds. -/
theorem applyOp_delete_ok {s : Session} {i : String} {d : Disk}
    {dspec : PartitionSpec} {p : Partition}
    (hd : findDisk s.model i = some d)
    (hp : d.partitions.find? (fun q => q.number == dspec.number) = some p)
    (hpres : d.preserve = false) :
    applyOp s (.delete i dspec) =
      .ok { s with model := setDisk s.model i { d with partitions := d.partitions.filter (fun q => q.number != dspec.number) } } := by
  simp only [applyOp]
  rw [withDisk_eq hd, deleteDisk_ok hp hpres]
  rfl

/-! ## Claim theorems -/

/-- C1: for every sequence of successful mutation operations applied to
the initially probed model, `reset()` followed by "get current layout"
returns a layout equal, field for field, to the layout captured
immediately after initial probing. -/
theorem reset_restores_probed_layout (probed : List Disk) (ops : List Op)
    (s : Session) (h : applyOps (initSession probed) ops = .ok s) :
    getLayout (reset s) = getLayout (initSession probed) := by
  have horig : s.orig = probed := applyOps_orig h
  simp [getLayout, reset, initSession, horig]

/-- Witness for C1: the flow test's reformat / add / edit / delete
sequence on the `win10` fixture succeeds and `reset` restores the probed
layout. -/
theorem reset_restores_probed_layout_witness :
    applyOps (initSession win10Disks) demoOps = .ok win10Reformatted ∧
    getLayout (reset win10Reformatted) = getLayout (initSession win10Disks) :=
  ⟨by decide,
   reset_restores_probed_layout win10Disks demoOps win10Reformatted (by decide)⟩

/-- C5: the lifecycle advances linearly WAITING, NEEDS_CONFIRMATION
(entered only by the client's confirm, which from WAITING yields exactly
NEEDS_CONFIRMATION), RUNNING, POST_WAIT, POST_RUNNING, UU_RUNNING, never
moving backwards once the commit phase RUNNING is reached (ERROR being
the only branch); before confirm the observed status stays WAITING. -/
theorem lifecycle_linear :
    (lifecycleStep .WAITING .confirm = some .NEEDS_CONFIRMATION) ∧
    (∀ st ev, lifecycleStep st ev = some .NEEDS_CONFIRMATION →
      st = .WAITING ∧ ev = .confirm) ∧
    (∀ ev st', lifecycleStep .WAITING ev = some st' → ev ≠ .confirm →
      st' = .ERROR) ∧
    (∀ st ev st', lifecycleStep st ev = some st' →
      st' = .ERROR ∨ (st = .NEEDS_CONFIRMATION ∧ st' = .WAITING) ∨
        st'.rank = st.rank + 1) ∧
    (∀ st ev st', lifecycleStep st ev = some st' →
      AppState.rank .RUNNING ≤ st.rank → st' ≠ .ERROR →
      st.rank ≤ st'.rank) := by
  decide

/-- Witness for C5: confirm from WAITING reaches NEEDS_CONFIRMATION, and
the RUNNING to POST_WAIT step moves forward in rank. -/
theorem lifecycle_linear_witness :
    (AppState.WAITING = .WAITING ∧ AppEvent.confirm = .confirm) ∧
    (AppState.POST_WAIT = .ERROR ∨
      (AppState.RUNNING = .NEEDS_CONFIRMATION ∧ AppState.POST_WAIT = .WAITING) ∨
      AppState.rank .POST_WAIT = AppState.rank .RUNNING + 1) ∧
    AppState.rank .RUNNING ≤ AppState.rank .POST_WAIT :=
  ⟨lifecycle_linear.2.1 .WAITING .confirm rfl,
   lifecycle_linear.2.2.2.1 .RUNNING .phaseDone .POST_WAIT rfl,
   lifecycle_linear.2.2.2.2 .RUNNING .phaseDone .POST_WAIT rfl (by decide) (by decide)⟩

/-- C8: a shutdown request with the immediate flag set drops the
connection without delivering a response, in every lifecycle state and
for every mode. -/
theorem shutdown_immediate_disconnects :
    ∀ (st : AppState) (mode : ShutdownMode),
      shutdownOutcome st mode true = .disconnect := by
  decide

/-- C2: on an originally-populated disk, deleting a partition that still
represents original never-reformatted on-disk data is a policy error,
and stays one even after an `edit_partition` of that same partition;
after a `reformat_disk` of the disk, deleting the (recreated, now number
1) partition succeeds. -/
theorem delete_requires_reformat (s : Session) (i : String) (d : Disk)
    (dspec espec aspec : PartitionSpec)
    (hd : findDisk s.model i = some d)
    (hpres : d.preserve = true)
    (hpart : (d.partitions.find? (fun q => q.number == dspec.number)).isSome = true) :
    applyOp s (.delete i dspec) = .error .policyError ∧
    (∀ s', applyOp s (.edit i espec) = .ok s' → espec.number = dspec.number →
      applyOp s' (.delete i dspec) = .error .policyError) ∧
    (∀ s₂ s₃, applyOp s (.reformat i) = .ok s₂ →
      applyOp s₂ (.add i aspec) = .ok s₃ →
      ∃ s₄, applyOp s₃ (.delete i { dspec with number := 1 }) = .ok s₄) := by
  obtain ⟨p, hp⟩ := Option.isSome_iff_exists.mp hpart
  have hid : d.id = i := findDisk_id hd
  refine ⟨applyOp_delete_policyError hd hp hpres, ?_, ?_⟩
  · intro s' hedit hnum
    simp only [applyOp] at hedit
    obtain ⟨dE, hdE, rfl⟩ := withDisk_map_ok hd hedit
    unfold editDisk at hdE
    cases hfe : d.partitions.find? (fun q => q.number == espec.number) with
    | none =>
      rw [hfe] at hdE
      exact Except.noConfusion hdE
    | some old =>
      rw [hfe] at hdE
      simp only [Except.ok.injEq] at hdE
      have hdEfind : findDisk (setDisk s.model i dE) i = some dE :=
        findDisk_setDisk hd dE (by rw [← hdE]; exact hid)
      have hfind2 : dE.partitions.find? (fun q => q.number == dspec.number)
          = some (editApply old espec) := by
        rw [← hdE, ← hnum]
        exact find?_map_editApply espec d.partitions old hfe
      exact applyOp_delete_policyError hdEfind hfind2 (by rw [← hdE]; exact hpres)
  · intro s₂ s₃ href hadd
    simp only [applyOp] at href hadd
    obtain ⟨dR, hdR, rfl⟩ := withDisk_map_ok hd href
    have hdRe : dR = { d with partitions := [], preserve := false } := by
      unfold reformatDisk at hdR
      exact (Except.ok.inj hdR).symm
    have hfind2 : findDisk (setDisk s.model i dR) i = some dR :=
      findDisk_setDisk hd dR (by rw [hdRe]; exact hid)
    obtain ⟨dA, hdA, rfl⟩ := withDisk_map_ok hfind2 hadd
    have hdAe : dA = { dR with partitions := dR.partitions ++ [newPartition aspec dR] } :=
      addPartition_ok_shape hdA
    have hfind3 : findDisk (setDisk (setDisk s.model i dR) i dA) i = some dA :=
      findDisk_setDisk hfind2 dA (by rw [hdAe, hdRe]; exact hid)
    have hfp : dA.partitions.find?
        (fun q => q.number == ({ dspec with number := 1 } : PartitionSpec).number)
        = some (newPartition aspec dR) := by
      rw [hdAe, hdRe]
      rfl
    have hApres : dA.preserve = false := by
      rw [hdAe, hdRe]
    exact ⟨_, applyOp_delete_ok hfind3 hfp hApres⟩

/-- Witness for C2: on the `win10` fixture, deleting partition 4 is a
policy error, still is after editing partition 4, and deleting the
partition recreated after a reformat succeeds. -/
theorem delete_requires_reformat_witness :
    applyOp (initSession win10Disks) (.delete "disk-sda" del4spec) = .error .policyError ∧
    applyOp win10Edited4 (.delete "disk-sda" del4spec) = .error .policyError ∧
    (∃ s₄, applyOp win10AddedSession (.delete "disk-sda" { del4spec with number := 1 }) = .ok s₄) := by
  obtain ⟨h1, h2, h3⟩ := delete_requires_reformat (initSession win10Disks)
    "disk-sda" win10sda del4spec del4spec demoAddSpec rfl rfl (by decide)
  exact ⟨h1, h2 win10Edited4 (by decide) rfl,
    h3 win10Reformatted win10AddedSession (by decide) (by decide)⟩

/-- C3: an `edit_partition` whose descriptor leaves size, number and
format unchanged yields a partition with `wipe = none`, `preserve`
unchanged, and (its wipe already being none) differing from its pre-call
value only in the requested mount field; an edit changing the format
yields `wipe = superblock` and `preserve = false`; partitions not named
in the call are unchanged. -/
theorem edit_partition_wipe (d : Disk) (spec : PartitionSpec)
    (old : Partition) (d' : Disk)
    (hfe : d.partitions.find? (fun q => q.number == spec.number) = some old)
    (hed : editDisk spec d = .ok d') :
    (((spec.format = none ∨ spec.format = old.format) ∧
        (spec.size ≤ 0 ∨ spec.size = (old.size : Int))) →
      editApply old spec = { old with mount := spec.mount, wipe := none } ∧
      (editApply old spec).wipe = none ∧
      (editApply old spec).preserve = old.preserve ∧
      (old.wipe = none → editApply old spec = { old with mount := spec.mount })) ∧
    ((spec.format ≠ none ∧ spec.format ≠ old.format) →
      (editApply old spec).wipe = some .superblock ∧
      (editApply old spec).preserve = false) ∧
    (d'.partitions.find? (fun q => q.number == spec.number) = some (editApply old spec)) ∧
    (∀ p, p ∈ d.partitions → p.number ≠ spec.number → p ∈ d'.partitions) := by
  have hd' : d' = { d with partitions := d.partitions.map (fun p => if p.number = spec.number then editApply p spec else p) } :=
    Except.ok.inj (hed.symm.trans (editDisk_ok hfe))
  refine ⟨?_, ?_, ?_, ?_⟩
  · intro hre
    have he : editApply old spec = { old with mount := spec.mount, wipe := none } := by
      unfold editApply
      rw [if_pos hre]
    refine ⟨he, by rw [he], by rw [he], ?_⟩
    intro hw
    rw [he, ← hw]
  · intro hch
    have he : editApply old spec = { old with size := if spec.size ≤ 0 then old.size else spec.size.toNat, format := if spec.format = none then old.format else spec.format, mount := spec.mount, preserve := false, wipe := some .superblock } := by
      unfold editApply
      rw [if_neg]
      intro hcon
      exact hcon.1.elim hch.1 hch.2
    exact ⟨by rw [he], by rw [he]⟩
  · rw [hd']
    exact find?_map_editApply spec d.partitions old hfe
  · intro p hp hnp
    rw [hd']
    exact List.mem_map.mpr ⟨p, hp, by rw [if_neg hnp]⟩

/-- Witness for C3: on the `win10` fixture, a same-format mount edit of
the EFI partition changes only the mount, and a format-changing edit of
the BitLocker partition yields a superblock wipe with preservation
dropped. -/
theorem edit_partition_wipe_witness :
    editApply win10p1 reuseSpec = { win10p1 with mount := some "/mnt", wipe := none } ∧
    editApply win10p1 reuseSpec = { win10p1 with mount := some "/mnt" } ∧
    (editApply win10p3 changeSpec).wipe = some .superblock ∧
    (editApply win10p3 changeSpec).preserve = false ∧
    win10ReuseDisk.partitions.find? (fun q => q.number == reuseSpec.number) = some (editApply win10p1 reuseSpec) := by
  obtain ⟨c1, _, c3, _⟩ :=
    edit_partition_wipe win10sda reuseSpec win10p1 win10ReuseDisk rfl rfl
  obtain ⟨-, c2, -, -⟩ :=
    edit_partition_wipe win10sda changeSpec win10p3
      { win10sda with partitions := win10sda.partitions.map (fun p => if p.number = changeSpec.number then editApply p changeSpec else p) }
      rfl rfl
  obtain ⟨e1, _, _, e4⟩ := c1 ⟨Or.inr rfl, Or.inl (by decide)⟩
  obtain ⟨f1, f2⟩ := c2 ⟨by decide, by decide⟩
  exact ⟨e1, e4 rfl, f1, f2, c3⟩

/-- C4: after `reformat_disk` on a disk and `add_partition` of a
partition sized at exactly half the disk's capacity, the disk's
`free_for_partitions` equals the disk's total size minus that
partition's size minus the fixed reserved overhead - numerically
42410704896 bytes on the 80 GiB fixture disk. -/
theorem free_after_half_partition (s : Session) (i : String) (d : Disk)
    (hd : findDisk s.model i = some d)
    (hpos : 0 < d.size / 2)
    (hroom : d.size / 2 + reservedOverhead ≤ d.size) :
    ∃ s₂ s₃ d', applyOp s (.reformat i) = .ok s₂ ∧
      applyOp s₂ (.add i (halfSpec d)) = .ok s₃ ∧
      findDisk s₃.model i = some d' ∧
      free_for_partitions d' = d.size - d.size / 2 - reservedOverhead ∧
      (d.size = 85899345920 → free_for_partitions d' = 42410704896) := by
  have hid : d.id = i := findDisk_id hd
  have h2 := applyOp_reformat_eq hd
  have hfind2 : findDisk (setDisk s.model i (clearedDisk d)) i = some (clearedDisk d) :=
    findDisk_setDisk hd _ hid
  have hfree0 : free_for_partitions (clearedDisk d) = d.size - reservedOverhead := by
    simp [free_for_partitions, clearedDisk, partSizeSum]
  have hreq : requestedSize (halfSpec d) (clearedDisk d) = d.size / 2 := by
    simp only [requestedSize, halfSpec]
    rw [if_neg (by omega)]
    omega
  have hcond : ¬ (requestedSize (halfSpec d) (clearedDisk d) = 0 ∨
      free_for_partitions (clearedDisk d) < requestedSize (halfSpec d) (clearedDisk d)) := by
    rw [hreq, hfree0]
    omega
  have hadd : addPartition (halfSpec d) (clearedDisk d) = .ok { clearedDisk d with partitions := (clearedDisk d).partitions ++ [newPartition (halfSpec d) (clearedDisk d)] } := by
    unfold addPartition
    rw [if_neg hcond]
  have h3 := applyOp_add_eq { s with model := setDisk s.model i (clearedDisk d) } hfind2 hadd
  have hfind3 : findDisk (setDisk (setDisk s.model i (clearedDisk d)) i { clearedDisk d with partitions := (clearedDisk d).partitions ++ [newPartition (halfSpec d) (clearedDisk d)] }) i = some { clearedDisk d with partitions := (clearedDisk d).partitions ++ [newPartition (halfSpec d) (clearedDisk d)] } :=
    findDisk_setDisk hfind2 _ hid
  have hcsize : (clearedDisk d).size = d.size := rfl
  have hcparts : (clearedDisk d).partitions = ([] : List Partition) := rfl
  have hfreeA : free_for_partitions { clearedDisk d with partitions := (clearedDisk d).partitions ++ [newPartition (halfSpec d) (clearedDisk d)] } = d.size - d.size / 2 - reservedOverhead := by
    simp [free_for_partitions, partSizeSum, newPartition, hreq, hcsize, hcparts]
  refine ⟨_, _, _, h2, h3, hfind3, hfreeA, ?_⟩
  intro hsz
  rw [hfreeA, hsz]
  decide

/-- Witness for C4: on the reformatted `win10` fixture disk the half-disk
add leaves exactly 42410704896 bytes of `free_for_partitions`. -/
theorem free_after_half_partition_witness :
    applyOp (initSession win10Disks) (.reformat "disk-sda") = .ok win10Reformatted ∧
    applyOp win10Reformatted (.add "disk-sda" (halfSpec win10sda)) = .ok win10HalfSession ∧
    findDisk win10HalfSession.model "disk-sda" = some win10HalfDisk ∧
    free_for_partitions win10HalfDisk = 42410704896 := by
  obtain ⟨s₂, s₃, d', h1, h2, h3, h4, h5⟩ :=
    free_after_half_partition (initSession win10Disks) "disk-sda" win10sda
      rfl (by decide) (by decide)
  have e2 : s₂ = win10Reformatted := Except.ok.inj (h1.symm.trans (by decide))
  subst e2
  have e3 : s₃ = win10HalfSession := Except.ok.inj (h2.symm.trans (by decide))
  subst e3
  have e4 : d' = win10HalfDisk := Option.some.inj (h3.symm.trans (by decide))
  subst e4
  exact ⟨h1, h2, h3, h5 rfl⟩

/-- C6: `parse_cloud_config` raises the descriptive `AssertionError` when
the first line is not exactly `#cloud-config`, raises the descriptive
`AssertionError` when the parsed document lacks a top-level `autoinstall`
key, and otherwise returns exactly the value of the document's
`autoinstall` key. -/
theorem parse_cloud_config_contract (doc : Doc) :
    (∀ l, firstLine? doc.data = some l → l ≠ "#cloud-config" →
      parse_cloud_config doc = .error (.assertionError headerAssertMsg)) ∧
    (∀ cc, firstLine? doc.data = some "#cloud-config" → doc.yaml = .ok cc →
      lookupKey "autoinstall" cc = none →
      parse_cloud_config doc = .error (.assertionError keyAssertMsg)) ∧
    (∀ cc v, firstLine? doc.data = some "#cloud-config" → doc.yaml = .ok cc →
      lookupKey "autoinstall" cc = some v →
      parse_cloud_config doc = .ok v) := by
  refine ⟨?_, ?_, ?_⟩
  · intro l hl hne
    unfold parse_cloud_config
    rw [hl]
    simp [hne]
  · intro cc hl hy hk
    unfold parse_cloud_config
    rw [hl, hy]
    simp [hk]
  · intro cc v hl hy hk
    unfold parse_cloud_config
    rw [hl, hy]
    simp [hk]

/-- Witness for C6: a wrong first line, a missing `autoinstall` key and a
present `autoinstall` key, each on a concrete input. -/
theorem parse_cloud_config_contract_witness :
    parse_cloud_config badHeaderDoc = .error (.assertionError headerAssertMsg) ∧
    parse_cloud_config noKeyDoc = .error (.assertionError keyAssertMsg) ∧
    parse_cloud_config goodDoc = .ok (.str "x") :=
  ⟨(parse_cloud_config_contract badHeaderDoc).1 "hello" rfl (by decide),
   (parse_cloud_config_contract noKeyDoc).2.1 [("foo", .str "bar")] rfl rfl rfl,
   (parse_cloud_config_contract goodDoc).2.2 [("autoinstall", .str "x")] (.str "x") rfl rfl rfl⟩

/-- C10: `parse_cloud_config` on the empty input (the only input with no
lines) hits the unguarded `data.splitlines()[0]` and raises `IndexError`,
not either of the documented descriptive `AssertionError`s - whatever the
YAML oracle would have said. -/
theorem parse_cloud_config_empty_input (y : Except String YamlDoc) :
    parse_cloud_config { data := "", yaml := y } = .error .indexError ∧
    parse_cloud_config { data := "", yaml := y } ≠ .error (.assertionError headerAssertMsg) ∧
    parse_cloud_config { data := "", yaml := y } ≠ .error (.assertionError keyAssertMsg) := by
  have h : parse_cloud_config { data := "", yaml := y } = .error .indexError := rfl
  refine ⟨h, ?_, ?_⟩ <;> rw [h] <;> simp

/-- Witness for C10: the empty input with a benign YAML oracle raises the
IndexError, not the header assertion. -/
theorem parse_cloud_config_empty_input_witness :
    parse_cloud_config { data := "", yaml := .ok [] } = .error .indexError ∧
    parse_cloud_config { data := "", yaml := .ok [] } ≠ .error (.assertionError headerAssertMsg) :=
  ⟨(parse_cloud_config_empty_input (.ok [])).1,
   (parse_cloud_config_empty_input (.ok [])).2.1⟩

/-- C9: `main` succeeds only if the input contains `DOC_LINK`: whenever
the link is absent the `assert verify_link(...)` raises, before any
header, key or schema validation runs and whatever the flags and the
oracles say - nothing is printed and the assertion error escapes. -/
theorem main_requires_doc_link (doc : Doc) (ecc legacy : Bool)
    (lr : Except String Unit) (h : verify_link doc.data = false) :
    main_run doc ecc legacy lr =
      { printed := [], outcome := .error (.assertionError linkAssertMsg) } := by
  unfold main_run
  rw [h]
  simp

/-- Witness for C9: an otherwise fully valid cloud-config input without
the documentation link makes `main` raise the link assertion. -/
theorem main_requires_doc_link_witness :
    verify_link noLinkDoc.data = false ∧
    parse_autoinstall noLinkDoc true = .ok (.dict []) ∧
    main_run noLinkDoc true false (.ok ()) =
      { printed := [], outcome := .error (.assertionError linkAssertMsg) } :=
  ⟨by decide, rfl, main_requires_doc_link noLinkDoc true false (.ok ()) (by decide)⟩

/-- C7 counterexample: on a fully valid input (doc link present, header
correct, `autoinstall` key present) run with `--legacy` while the JSON
schema rejects the document, `main` prints nothing at all - neither
`SUCCESS_MSG` nor any failure message - and lets the `ValidationError`
escape. -/
theorem main_legacy_reject_prints_nothing :
    (main_run linkedDoc true true (.error "schema mismatch")).printed = [] ∧
    (main_run linkedDoc true true (.error "schema mismatch")).outcome =
      .error (.validationError "schema mismatch") ∧
    verify_link linkedDoc.data = true ∧
    parse_autoinstall linkedDoc true = .ok (.dict []) := by
  refine ⟨?_, ?_, ?_, rfl⟩ <;> decide

/-- A printed `FAILURE: <exc>` line is never the `FAILURE_MSG` text (the
second characters differ). -/
theorem failure_line_ne (m : String) : "FAILURE: " ++ m ≠ FAILURE_MSG := by
  intro h
  have h9 : ("FAILURE: " ++ m).data.get? 1 = some 'A' := rfl
  rw [h] at h9
  exact absurd h9 (by decide)

/-- C7 (amended): `main` prints exactly `SUCCESS_MSG` and returns
normally when the doc link is present, parsing succeeds and legacy
validation (when requested) passes; prints exactly one `FAILURE: <exc>`
line and returns 1 when the link is present but parsing fails; prints
nothing and lets the exception escape in the two remaining cases
(missing doc link, legacy schema rejection); and never emits the unused
`FAILURE_MSG` text. -/
theorem main_message_behaviour (doc : Doc) (ecc legacy : Bool)
    (lr : Except String Unit) :
    (verify_link doc.data = true → ∀ ai, parse_autoinstall doc ecc = .ok ai →
      (legacy = true → lr = .ok ()) →
      (main_run doc ecc legacy lr).printed = [SUCCESS_MSG] ∧
      (main_run doc ecc legacy lr).outcome = .ok none) ∧
    (verify_link doc.data = true → ∀ exc, parse_autoinstall doc ecc = .error exc →
      (main_run doc ecc legacy lr).printed = ["FAILURE: " ++ exc.toMessage] ∧
      (main_run doc ecc legacy lr).outcome = .ok (some 1)) ∧
    (verify_link doc.data = false →
      (main_run doc ecc legacy lr).printed = [] ∧
      (main_run doc ecc legacy lr).outcome = .error (.assertionError linkAssertMsg)) ∧
    (verify_link doc.data = true → ∀ ai m, parse_autoinstall doc ecc = .ok ai →
      legacy = true → lr = .error m →
      (main_run doc ecc legacy lr).printed = [] ∧
      (main_run doc ecc legacy lr).outcome = .error (.validationError m)) ∧
    FAILURE_MSG ∉ (main_run doc ecc legacy lr).printed := by
  refine ⟨?_, ?_, ?_, ?_, ?_⟩
  · intro hv ai hp hleg
    cases legacy with
    | false => constructor <;> simp [main_run, hv, hp]
    | true =>
      have hok := hleg rfl
      subst hok
      constructor <;> simp [main_run, hv, hp]
  · intro hv exc hp
    constructor <;> simp [main_run, hv, hp]
  · intro hv
    constructor <;> simp [main_run, hv]
  · intro hv ai m hp hleg hlr
    subst hleg
    subst hlr
    constructor <;> simp [main_run, hv, hp]
  · by_cases hv : verify_link doc.data = true
    · cases hp : parse_autoinstall doc ecc with
      | error exc =>
        have hmain : (main_run doc ecc legacy lr).printed = ["FAILURE: " ++ exc.toMessage] := by
          simp [main_run, hv, hp]
        rw [hmain]
        intro h
        exact failure_line_ne exc.toMessage (List.mem_singleton.mp h).symm
      | ok ai =>
        cases legacy with
        | false =>
          have hmain : (main_run doc ecc false lr).printed = [SUCCESS_MSG] := by
            simp [main_run, hv, hp]
          rw [hmain]
          intro h
          exact absurd (List.mem_singleton.mp h) (by decide)
        | true =>
          cases lr with
          | error m => simp [main_run, hv, hp]
          | ok u =>
            have hmain : (main_run doc ecc true (.ok u)).printed = [SUCCESS_MSG] := by
              simp [main_run, hv, hp]
            rw [hmain]
            intro h
            exact absurd (List.mem_singleton.mp h) (by decide)
    · simp [main_run, hv]

/-- Witness for the amended C7: the success, FAILURE-line, missing-link
and legacy-reject cases each realized on a concrete input, and
`FAILURE_MSG` absent from the success run's output. -/
theorem main_message_behaviour_witness :
    (main_run linkedDoc true false (.ok ())).printed = [SUCCESS_MSG] ∧
    (main_run badParseDoc true false (.ok ())).printed = ["FAILURE: " ++ headerAssertMsg] ∧
    (main_run noLinkDoc true false (.ok ())).printed = [] ∧
    (main_run linkedDoc true true (.error "schema mismatch")).printed = [] ∧
    FAILURE_MSG ∉ (main_run linkedDoc true false (.ok ())).printed := by
  obtain ⟨c1, -, -, -, c5⟩ := main_message_behaviour linkedDoc true false (.ok ())
  obtain ⟨-, b2, -, -, -⟩ := main_message_behaviour badParseDoc true false (.ok ())
  obtain ⟨-, -, n3, -, -⟩ := main_message_behaviour noLinkDoc true false (.ok ())
  obtain ⟨-, -, -, l4, -⟩ :=
    main_message_behaviour linkedDoc true true (.error "schema mismatch")
  exact ⟨(c1 (by decide) (.dict []) rfl (fun h => rfl)).1,
         (b2 (by decide) (.assertionError headerAssertMsg) rfl).1,
         (n3 (by decide)).1,
         (l4 (by decide) (.dict []) "schema mismatch" rfl rfl rfl).1,
         c5⟩

end Subiquity
